import Mathlib

/-!
Shallow embedding of `src/main.rs` (road_intersection): the Vehicle
heading/route state machine, the off-screen test, the simulation tick,
and the per-direction wall-clock spawn throttle of the main loop.

All positions in the source are `f32` values that start at integer
coordinates and move in steps of `2.0`; every constant involved
(`CENTER_X = 500`, `CENTER_Y = 400`, `LANE_WIDTH = 30`, thresholds
`CENTER ± LANE_WIDTH / 2`) is an integer exactly representable in `f32`,
and `LANE_WIDTH as f32 / 2.0 = 15.0` is exact, so `Int` coordinates are a
faithful model of the reachable float arithmetic.
-/

def WINDOW_WIDTH : Int := 1000

def WINDOW_HEIGHT : Int := 800

def VEHICLE_SPEED : Int := 2

def LANE_WIDTH : Int := 30

def CENTER_X : Int := WINDOW_WIDTH / 2

def CENTER_Y : Int := WINDOW_HEIGHT / 2

/-- The `Vehicle` struct of the source: position, current direction of
travel, the direction the vehicle spawned with, and its route.  The
`color` field of the source is derived from `route` and purely cosmetic,
so it is omitted.  Direction and route are `String`s, as in the source. -/
structure Vehicle where
  x : Int
  y : Int
  direction : String
  initial_direction : String
  route : String
deriving DecidableEq

/-- The `routes` array of `Vehicle::new`. -/
def routes : List String := ["Straight", "TurnLeft", "TurnRight"]

/-- `Vehicle::new(direction)`.  The source draws a uniformly random index
into `routes`; the index is passed explicitly here. -/
def Vehicle.new (direction : String) (routeIdx : Fin 3) : Vehicle :=
  let p : Int × Int :=
    if direction = "up" then (CENTER_X - LANE_WIDTH, WINDOW_HEIGHT)
    else if direction = "down" then (CENTER_X + LANE_WIDTH, 0)
    else if direction = "right" then (0, CENTER_Y + LANE_WIDTH)
    else if direction = "left" then (WINDOW_WIDTH, CENTER_Y - LANE_WIDTH)
    else (0, 0)
  let route_str : String := routes.get ⟨routeIdx.val, by simp [routes]⟩
  { x := p.1, y := p.2, direction := direction,
    initial_direction := direction, route := route_str }

/-- First half of `Vehicle::update`: the `match self.initial_direction`
turn evaluation. -/
def Vehicle.turnStep (v : Vehicle) : Vehicle :=
  let y_to_up : Int := CENTER_Y + LANE_WIDTH / 2
  let y_to_down : Int := CENTER_Y - LANE_WIDTH / 2
  let x_to_right : Int := CENTER_X - LANE_WIDTH / 2
  let x_to_left : Int := CENTER_X + LANE_WIDTH / 2
  if v.initial_direction = "up" then
    if v.route = "TurnLeft" ∧ v.y ≤ y_to_up then { v with direction := "right" }
    else if v.route = "TurnRight" ∧ v.y ≤ y_to_down then { v with direction := "left" }
    else v
  else if v.initial_direction = "down" then
    if v.route = "TurnLeft" ∧ v.y ≥ y_to_down then { v with direction := "left" }
    else if v.route = "TurnRight" ∧ v.y ≥ y_to_up then { v with direction := "right" }
    else v
  else if v.initial_direction = "right" then
    if v.route = "TurnLeft" ∧ v.x ≥ x_to_right then { v with direction := "up" }
    else if v.route = "TurnRight" ∧ v.x ≥ x_to_left then { v with direction := "down" }
    else v
  else if v.initial_direction = "left" then
    if v.route = "TurnLeft" ∧ v.x ≤ x_to_left then { v with direction := "down" }
    else if v.route = "TurnRight" ∧ v.x ≤ x_to_right then { v with direction := "up" }
    else v
  else v

/-- Second half of `Vehicle::update`: the `match self.direction` move. -/
def Vehicle.moveStep (v : Vehicle) : Vehicle :=
  if v.direction = "up" then { v with y := v.y - VEHICLE_SPEED }
  else if v.direction = "down" then { v with y := v.y + VEHICLE_SPEED }
  else if v.direction = "right" then { v with x := v.x + VEHICLE_SPEED }
  else if v.direction = "left" then { v with x := v.x - VEHICLE_SPEED }
  else v

/-- `Vehicle::update`: turn evaluation followed by translation. -/
def Vehicle.update (v : Vehicle) : Vehicle :=
  v.turnStep.moveStep

/-- `Vehicle::is_off_screen`. -/
def Vehicle.is_off_screen (v : Vehicle) : Bool :=
  decide (v.x < -50 ∨ v.x > WINDOW_WIDTH + 50 ∨ v.y < -50 ∨ v.y > WINDOW_HEIGHT + 50)

/-- The `TrafficSimulation` struct: the vehicle collection. -/
structure TrafficSimulation where
  vehicles : List Vehicle
deriving DecidableEq

/-- `TrafficSimulation::spawn_vehicle` (`Vec::push` appends). -/
def TrafficSimulation.spawn_vehicle (s : TrafficSimulation) (direction : String)
    (routeIdx : Fin 3) : TrafficSimulation :=
  ⟨s.vehicles ++ [Vehicle.new direction routeIdx]⟩

/-- `TrafficSimulation::update`: update every vehicle in place, then
`retain` those not off screen. -/
def TrafficSimulation.update (s : TrafficSimulation) : TrafficSimulation :=
  ⟨(s.vehicles.map Vehicle.update).filter (fun v => !v.is_off_screen)⟩

/-- The post-turn direction assigned by each turn branch of
`Vehicle::update`, read off the eight `self.direction = ...` assignments. -/
def turnTarget (d r : String) : String :=
  if d = "up" then (if r = "TurnLeft" then "right" else "left")
  else if d = "down" then (if r = "TurnLeft" then "left" else "right")
  else if d = "right" then (if r = "TurnLeft" then "up" else "down")
  else if d = "left" then (if r = "TurnLeft" then "down" else "up")
  else d

/-! ### Trajectories of spawned vehicles

Closed forms for `Vehicle.update^[n] (Vehicle.new d ri)`, split at the
tick on which the turn branch first fires.  Route indices: `0 ↦ Straight`,
`1 ↦ TurnLeft`, `2 ↦ TurnRight`. -/

theorem traj_up_straight : ∀ n : Nat,
    Vehicle.update^[n] (Vehicle.new "up" 0) =
      ⟨470, 800 - 2 * (n : Int), "up", "up", "Straight"⟩ := by
  intro n
  induction n with
  | zero => decide
  | succ m ih =>
    rw [Function.iterate_succ_apply', ih]
    simp [Vehicle.update, Vehicle.turnStep, Vehicle.moveStep,
      CENTER_X, CENTER_Y, LANE_WIDTH, WINDOW_WIDTH, WINDOW_HEIGHT, VEHICLE_SPEED]
    omega

theorem traj_up_TL_pre : ∀ n : Nat, n ≤ 193 →
    Vehicle.update^[n] (Vehicle.new "up" 1) =
      ⟨470, 800 - 2 * (n : Int), "up", "up", "TurnLeft"⟩ := by
  intro n
  induction n with
  | zero => intro _; decide
  | succ m ih =>
    intro hm
    rw [Function.iterate_succ_apply', ih (by omega)]
    have hcond : ¬ (800 - 2 * (m : Int) ≤ 415) := by omega
    simp [Vehicle.update, Vehicle.turnStep, Vehicle.moveStep, hcond,
      CENTER_X, CENTER_Y, LANE_WIDTH, WINDOW_WIDTH, WINDOW_HEIGHT, VEHICLE_SPEED]
    omega

theorem traj_up_TL_post : ∀ m : Nat,
    Vehicle.update^[194 + m] (Vehicle.new "up" 1) =
      ⟨472 + 2 * (m : Int), 414, "right", "up", "TurnLeft"⟩ := by
  intro m
  induction m with
  | zero =>
    rw [show (194 + 0 : Nat) = 193 + 1 by omega, Function.iterate_succ_apply',
      traj_up_TL_pre 193 (by omega)]
    decide
  | succ k ih =>
    rw [show (194 + (k + 1) : Nat) = (194 + k) + 1 by omega,
      Function.iterate_succ_apply', ih]
    simp [Vehicle.update, Vehicle.turnStep, Vehicle.moveStep,
      CENTER_X, CENTER_Y, LANE_WIDTH, WINDOW_WIDTH, WINDOW_HEIGHT, VEHICLE_SPEED]
    omega

theorem traj_up_TR_pre : ∀ n : Nat, n ≤ 208 →
    Vehicle.update^[n] (Vehicle.new "up" 2) =
      ⟨470, 800 - 2 * (n : Int), "up", "up", "TurnRight"⟩ := by
  intro n
  induction n with
  | zero => intro _; decide
  | succ m ih =>
    intro hm
    rw [Function.iterate_succ_apply', ih (by omega)]
    have hcond : ¬ (800 - 2 * (m : Int) ≤ 385) := by omega
    simp [Vehicle.update, Vehicle.turnStep, Vehicle.moveStep, hcond,
      CENTER_X, CENTER_Y, LANE_WIDTH, WINDOW_WIDTH, WINDOW_HEIGHT, VEHICLE_SPEED]
    omega

theorem traj_up_TR_post : ∀ m : Nat,
    Vehicle.update^[209 + m] (Vehicle.new "up" 2) =
      ⟨468 - 2 * (m : Int), 384, "left", "up", "TurnRight"⟩ := by
  intro m
  induction m with
  | zero =>
    rw [show (209 + 0 : Nat) = 208 + 1 by omega, Function.iterate_succ_apply',
      traj_up_TR_pre 208 (by omega)]
    decide
  | succ k ih =>
    rw [show (209 + (k + 1) : Nat) = (209 + k) + 1 by omega,
      Function.iterate_succ_apply', ih]
    simp [Vehicle.update, Vehicle.turnStep, Vehicle.moveStep,
      CENTER_X, CENTER_Y, LANE_WIDTH, WINDOW_WIDTH, WINDOW_HEIGHT, VEHICLE_SPEED]
    omega

theorem traj_down_straight : ∀ n : Nat,
    Vehicle.update^[n] (Vehicle.new "down" 0) =
      ⟨530, 2 * (n : Int), "down", "down", "Straight"⟩ := by
  intro n
  induction n with
  | zero => decide
  | succ m ih =>
    rw [Function.iterate_succ_apply', ih]
    simp [Vehicle.update, Vehicle.turnStep, Vehicle.moveStep,
      CENTER_X, CENTER_Y, LANE_WIDTH, WINDOW_WIDTH, WINDOW_HEIGHT, VEHICLE_SPEED]
    omega

theorem traj_down_TL_pre : ∀ n : Nat, n ≤ 193 →
    Vehicle.update^[n] (Vehicle.new "down" 1) =
      ⟨530, 2 * (n : Int), "down", "down", "TurnLeft"⟩ := by
  intro n
  induction n with
  | zero => intro _; decide
  | succ m ih =>
    intro hm
    rw [Function.iterate_succ_apply', ih (by omega)]
    have hcond : ¬ ((385 : Int) ≤ 2 * (m : Int)) := by omega
    simp [Vehicle.update, Vehicle.turnStep, Vehicle.moveStep, hcond,
      CENTER_X, CENTER_Y, LANE_WIDTH, WINDOW_WIDTH, WINDOW_HEIGHT, VEHICLE_SPEED]
    omega

theorem traj_down_TL_post : ∀ m : Nat,
    Vehicle.update^[194 + m] (Vehicle.new "down" 1) =
      ⟨528 - 2 * (m : Int), 386, "left", "down", "TurnLeft"⟩ := by
  intro m
  induction m with
  | zero =>
    rw [show (194 + 0 : Nat) = 193 + 1 by omega, Function.iterate_succ_apply',
      traj_down_TL_pre 193 (by omega)]
    decide
  | succ k ih =>
    rw [show (194 + (k + 1) : Nat) = (194 + k) + 1 by omega,
      Function.iterate_succ_apply', ih]
    simp [Vehicle.update, Vehicle.turnStep, Vehicle.moveStep,
      CENTER_X, CENTER_Y, LANE_WIDTH, WINDOW_WIDTH, WINDOW_HEIGHT, VEHICLE_SPEED]
    omega

theorem traj_down_TR_pre : ∀ n : Nat, n ≤ 208 →
    Vehicle.update^[n] (Vehicle.new "down" 2) =
      ⟨530, 2 * (n : Int), "down", "down", "TurnRight"⟩ := by
  intro n
  induction n with
  | zero => intro _; decide
  | succ m ih =>
    intro hm
    rw [Function.iterate_succ_apply', ih (by omega)]
    have hcond : ¬ ((415 : Int) ≤ 2 * (m : Int)) := by omega
    simp [Vehicle.update, Vehicle.turnStep, Vehicle.moveStep, hcond,
      CENTER_X, CENTER_Y, LANE_WIDTH, WINDOW_WIDTH, WINDOW_HEIGHT, VEHICLE_SPEED]
    omega

theorem traj_down_TR_post : ∀ m : Nat,
    Vehicle.update^[209 + m] (Vehicle.new "down" 2) =
      ⟨532 + 2 * (m : Int), 416, "right", "down", "TurnRight"⟩ := by
  intro m
  induction m with
  | zero =>
    rw [show (209 + 0 : Nat) = 208 + 1 by omega, Function.iterate_succ_apply',
      traj_down_TR_pre 208 (by omega)]
    decide
  | succ k ih =>
    rw [show (209 + (k + 1) : Nat) = (209 + k) + 1 by omega,
      Function.iterate_succ_apply', ih]
    simp [Vehicle.update, Vehicle.turnStep, Vehicle.moveStep,
      CENTER_X, CENTER_Y, LANE_WIDTH, WINDOW_WIDTH, WINDOW_HEIGHT, VEHICLE_SPEED]
    omega

theorem traj_right_straight : ∀ n : Nat,
    Vehicle.update^[n] (Vehicle.new "right" 0) =
      ⟨2 * (n : Int), 430, "right", "right", "Straight"⟩ := by
  intro n
  induction n with
  | zero => decide
  | succ m ih =>
    rw [Function.iterate_succ_apply', ih]
    simp [Vehicle.update, Vehicle.turnStep, Vehicle.moveStep,
      CENTER_X, CENTER_Y, LANE_WIDTH, WINDOW_WIDTH, WINDOW_HEIGHT, VEHICLE_SPEED]
    omega

theorem traj_right_TL_pre : ∀ n : Nat, n ≤ 243 →
    Vehicle.update^[n] (Vehicle.new "right" 1) =
      ⟨2 * (n : Int), 430, "right", "right", "TurnLeft"⟩ := by
  intro n
  induction n with
  | zero => intro _; decide
  | succ m ih =>
    intro hm
    rw [Function.iterate_succ_apply', ih (by omega)]
    have hcond : ¬ ((485 : Int) ≤ 2 * (m : Int)) := by omega
    simp [Vehicle.update, Vehicle.turnStep, Vehicle.moveStep, hcond,
      CENTER_X, CENTER_Y, LANE_WIDTH, WINDOW_WIDTH, WINDOW_HEIGHT, VEHICLE_SPEED]
    omega

theorem traj_right_TL_post : ∀ m : Nat,
    Vehicle.update^[244 + m] (Vehicle.new "right" 1) =
      ⟨486, 428 - 2 * (m : Int), "up", "right", "TurnLeft"⟩ := by
  intro m
  induction m with
  | zero =>
    rw [show (244 + 0 : Nat) = 243 + 1 by omega, Function.iterate_succ_apply',
      traj_right_TL_pre 243 (by omega)]
    decide
  | succ k ih =>
    rw [show (244 + (k + 1) : Nat) = (244 + k) + 1 by omega,
      Function.iterate_succ_apply', ih]
    simp [Vehicle.update, Vehicle.turnStep, Vehicle.moveStep,
      CENTER_X, CENTER_Y, LANE_WIDTH, WINDOW_WIDTH, WINDOW_HEIGHT, VEHICLE_SPEED]
    omega

theorem traj_right_TR_pre : ∀ n : Nat, n ≤ 258 →
    Vehicle.update^[n] (Vehicle.new "right" 2) =
      ⟨2 * (n : Int), 430, "right", "right", "TurnRight"⟩ := by
  intro n
  induction n with
  | zero => intro _; decide
  | succ m ih =>
    intro hm
    rw [Function.iterate_succ_apply', ih (by omega)]
    have hcond : ¬ ((515 : Int) ≤ 2 * (m : Int)) := by omega
    simp [Vehicle.update, Vehicle.turnStep, Vehicle.moveStep, hcond,
      CENTER_X, CENTER_Y, LANE_WIDTH, WINDOW_WIDTH, WINDOW_HEIGHT, VEHICLE_SPEED]
    omega

theorem traj_right_TR_post : ∀ m : Nat,
    Vehicle.update^[259 + m] (Vehicle.new "right" 2) =
      ⟨516, 432 + 2 * (m : Int), "down", "right", "TurnRight"⟩ := by
  intro m
  induction m with
  | zero =>
    rw [show (259 + 0 : Nat) = 258 + 1 by omega, Function.iterate_succ_apply',
      traj_right_TR_pre 258 (by omega)]
    decide
  | succ k ih =>
    rw [show (259 + (k + 1) : Nat) = (259 + k) + 1 by omega,
      Function.iterate_succ_apply', ih]
    simp [Vehicle.update, Vehicle.turnStep, Vehicle.moveStep,
      CENTER_X, CENTER_Y, LANE_WIDTH, WINDOW_WIDTH, WINDOW_HEIGHT, VEHICLE_SPEED]
    omega

theorem traj_left_straight : ∀ n : Nat,
    Vehicle.update^[n] (Vehicle.new "left" 0) =
      ⟨1000 - 2 * (n : Int), 370, "left", "left", "Straight"⟩ := by
  intro n
  induction n with
  | zero => decide
  | succ m ih =>
    rw [Function.iterate_succ_apply', ih]
    simp [Vehicle.update, Vehicle.turnStep, Vehicle.moveStep,
      CENTER_X, CENTER_Y, LANE_WIDTH, WINDOW_WIDTH, WINDOW_HEIGHT, VEHICLE_SPEED]
    omega

theorem traj_left_TL_pre : ∀ n : Nat, n ≤ 243 →
    Vehicle.update^[n] (Vehicle.new "left" 1) =
      ⟨1000 - 2 * (n : Int), 370, "left", "left", "TurnLeft"⟩ := by
  intro n
  induction n with
  | zero => intro _; decide
  | succ m ih =>
    intro hm
    rw [Function.iterate_succ_apply', ih (by omega)]
    have hcond : ¬ (1000 - 2 * (m : Int) ≤ 515) := by omega
    simp [Vehicle.update, Vehicle.turnStep, Vehicle.moveStep, hcond,
      CENTER_X, CENTER_Y, LANE_WIDTH, WINDOW_WIDTH, WINDOW_HEIGHT, VEHICLE_SPEED]
    omega

theorem traj_left_TL_post : ∀ m : Nat,
    Vehicle.update^[244 + m] (Vehicle.new "left" 1) =
      ⟨514, 372 + 2 * (m : Int), "down", "left", "TurnLeft"⟩ := by
  intro m
  induction m with
  | zero =>
    rw [show (244 + 0 : Nat) = 243 + 1 by omega, Function.iterate_succ_apply',
      traj_left_TL_pre 243 (by omega)]
    decide
  | succ k ih =>
    rw [show (244 + (k + 1) : Nat) = (244 + k) + 1 by omega,
      Function.iterate_succ_apply', ih]
    simp [Vehicle.update, Vehicle.turnStep, Vehicle.moveStep,
      CENTER_X, CENTER_Y, LANE_WIDTH, WINDOW_WIDTH, WINDOW_HEIGHT, VEHICLE_SPEED]
    omega

theorem traj_left_TR_pre : ∀ n : Nat, n ≤ 258 →
    Vehicle.update^[n] (Vehicle.new "left" 2) =
      ⟨1000 - 2 * (n : Int), 370, "left", "left", "TurnRight"⟩ := by
  intro n
  induction n with
  | zero => intro _; decide
  | succ m ih =>
    intro hm
    rw [Function.iterate_succ_apply', ih (by omega)]
    have hcond : ¬ (1000 - 2 * (m : Int) ≤ 485) := by omega
    simp [Vehicle.update, Vehicle.turnStep, Vehicle.moveStep, hcond,
      CENTER_X, CENTER_Y, LANE_WIDTH, WINDOW_WIDTH, WINDOW_HEIGHT, VEHICLE_SPEED]
    omega

theorem traj_left_TR_post : ∀ m : Nat,
    Vehicle.update^[259 + m] (Vehicle.new "left" 2) =
      ⟨484, 368 - 2 * (m : Int), "up", "left", "TurnRight"⟩ := by
  intro m
  induction m with
  | zero =>
    rw [show (259 + 0 : Nat) = 258 + 1 by omega, Function.iterate_succ_apply',
      traj_left_TR_pre 258 (by omega)]
    decide
  | succ k ih =>
    rw [show (259 + (k + 1) : Nat) = (259 + k) + 1 by omega,
      Function.iterate_succ_apply', ih]
    simp [Vehicle.update, Vehicle.turnStep, Vehicle.moveStep,
      CENTER_X, CENTER_Y, LANE_WIDTH, WINDOW_WIDTH, WINDOW_HEIGHT, VEHICLE_SPEED]
    omega

/-- C1: for every spawned vehicle, over the sequence of `Vehicle::update()`
calls from spawn on, the heading changes at most once: never if the route
is `Straight`, and exactly once — at a tick `k` at which the vehicle is
still on screen, to a direction different from the spawn heading, never
reverting afterwards — if the route is `TurnLeft` or `TurnRight`. -/
theorem C1_heading_changes_at_most_once (d : String) (ri : Fin 3)
    (hd : d ∈ ["up", "down", "right", "left"]) :
    ((Vehicle.new d ri).route = "Straight" →
      ∀ n : Nat, (Vehicle.update^[n] (Vehicle.new d ri)).direction = d) ∧
    ((Vehicle.new d ri).route ≠ "Straight" →
      ∃ k : Nat, 0 < k ∧
        (∀ n : Nat, n < k → (Vehicle.update^[n] (Vehicle.new d ri)).direction = d) ∧
        (∀ n : Nat, k ≤ n → (Vehicle.update^[n] (Vehicle.new d ri)).direction =
          turnTarget d (Vehicle.new d ri).route) ∧
        turnTarget d (Vehicle.new d ri).route ≠ d ∧
        (∀ n : Nat, n < k →
          (Vehicle.update^[n] (Vehicle.new d ri)).is_off_screen = false)) := by
  have hd' : d = "up" ∨ d = "down" ∨ d = "right" ∨ d = "left" := by simpa using hd
  have hri : ri = 0 ∨ ri = 1 ∨ ri = 2 := by fin_cases ri <;> decide
  rcases hd' with rfl | rfl | rfl | rfl <;> rcases hri with rfl | rfl | rfl
  · refine ⟨fun _ n => ?_, fun h => absurd (by decide) h⟩
    rw [traj_up_straight n]
  · refine ⟨fun h => absurd h (by decide), fun _ => ⟨194, by omega, ?_, ?_, by decide, ?_⟩⟩
    · intro n hn
      rw [traj_up_TL_pre n (by omega)]
    · intro n hn
      have h2 := traj_up_TL_post (n - 194)
      rw [show (194 + (n - 194) : Nat) = n from by omega] at h2
      rw [h2]
      rfl
    · intro n hn
      rw [traj_up_TL_pre n (by omega)]
      simp [Vehicle.is_off_screen, decide_eq_false_iff_not, WINDOW_WIDTH, WINDOW_HEIGHT]
      omega
  · refine ⟨fun h => absurd h (by decide), fun _ => ⟨209, by omega, ?_, ?_, by decide, ?_⟩⟩
    · intro n hn
      rw [traj_up_TR_pre n (by omega)]
    · intro n hn
      have h2 := traj_up_TR_post (n - 209)
      rw [show (209 + (n - 209) : Nat) = n from by omega] at h2
      rw [h2]
      rfl
    · intro n hn
      rw [traj_up_TR_pre n (by omega)]
      simp [Vehicle.is_off_screen, decide_eq_false_iff_not, WINDOW_WIDTH, WINDOW_HEIGHT]
      omega
  · refine ⟨fun _ n => ?_, fun h => absurd (by decide) h⟩
    rw [traj_down_straight n]
  · refine ⟨fun h => absurd h (by decide), fun _ => ⟨194, by omega, ?_, ?_, by decide, ?_⟩⟩
    · intro n hn
      rw [traj_down_TL_pre n (by omega)]
    · intro n hn
      have h2 := traj_down_TL_post (n - 194)
      rw [show (194 + (n - 194) : Nat) = n from by omega] at h2
      rw [h2]
      rfl
    · intro n hn
      rw [traj_down_TL_pre n (by omega)]
      simp [Vehicle.is_off_screen, decide_eq_false_iff_not, WINDOW_WIDTH, WINDOW_HEIGHT]
      omega
  · refine ⟨fun h => absurd h (by decide), fun _ => ⟨209, by omega, ?_, ?_, by decide, ?_⟩⟩
    · intro n hn
      rw [traj_down_TR_pre n (by omega)]
    · intro n hn
      have h2 := traj_down_TR_post (n - 209)
      rw [show (209 + (n - 209) : Nat) = n from by omega] at h2
      rw [h2]
      rfl
    · intro n hn
      rw [traj_down_TR_pre n (by omega)]
      simp [Vehicle.is_off_screen, decide_eq_false_iff_not, WINDOW_WIDTH, WINDOW_HEIGHT]
      omega
  · refine ⟨fun _ n => ?_, fun h => absurd (by decide) h⟩
    rw [traj_right_straight n]
  · refine ⟨fun h => absurd h (by decide), fun _ => ⟨244, by omega, ?_, ?_, by decide, ?_⟩⟩
    · intro n hn
      rw [traj_right_TL_pre n (by omega)]
    · intro n hn
      have h2 := traj_right_TL_post (n - 244)
      rw [show (244 + (n - 244) : Nat) = n from by omega] at h2
      rw [h2]
      rfl
    · intro n hn
      rw [traj_right_TL_pre n (by omega)]
      simp [Vehicle.is_off_screen, decide_eq_false_iff_not, WINDOW_WIDTH, WINDOW_HEIGHT]
      omega
  · refine ⟨fun h => absurd h (by decide), fun _ => ⟨259, by omega, ?_, ?_, by decide, ?_⟩⟩
    · intro n hn
      rw [traj_right_TR_pre n (by omega)]
    · intro n hn
      have h2 := traj_right_TR_post (n - 259)
      rw [show (259 + (n - 259) : Nat) = n from by omega] at h2
      rw [h2]
      rfl
    · intro n hn
      rw [traj_right_TR_pre n (by omega)]
      simp [Vehicle.is_off_screen, decide_eq_false_iff_not, WINDOW_WIDTH, WINDOW_HEIGHT]
      omega
  · refine ⟨fun _ n => ?_, fun h => absurd (by decide) h⟩
    rw [traj_left_straight n]
  · refine ⟨fun h => absurd h (by decide), fun _ => ⟨244, by omega, ?_, ?_, by decide, ?_⟩⟩
    · intro n hn
      rw [traj_left_TL_pre n (by omega)]
    · intro n hn
      have h2 := traj_left_TL_post (n - 244)
      rw [show (244 + (n - 244) : Nat) = n from by omega] at h2
      rw [h2]
      rfl
    · intro n hn
      rw [traj_left_TL_pre n (by omega)]
      simp [Vehicle.is_off_screen, decide_eq_false_iff_not, WINDOW_WIDTH, WINDOW_HEIGHT]
      omega
  · refine ⟨fun h => absurd h (by decide), fun _ => ⟨259, by omega, ?_, ?_, by decide, ?_⟩⟩
    · intro n hn
      rw [traj_left_TR_pre n (by omega)]
    · intro n hn
      have h2 := traj_left_TR_post (n - 259)
      rw [show (259 + (n - 259) : Nat) = n from by omega] at h2
      rw [h2]
      rfl
    · intro n hn
      rw [traj_left_TR_pre n (by omega)]
      simp [Vehicle.is_off_screen, decide_eq_false_iff_not, WINDOW_WIDTH, WINDOW_HEIGHT]
      omega

/-- C1 witness: the theorem instantiated at the `up` approach with route
index 1 (`TurnLeft`). -/
theorem C1_witness :
    ((Vehicle.new "up" 1).route = "Straight" →
      ∀ n : Nat, (Vehicle.update^[n] (Vehicle.new "up" 1)).direction = "up") ∧
    ((Vehicle.new "up" 1).route ≠ "Straight" →
      ∃ k : Nat, 0 < k ∧
        (∀ n : Nat, n < k → (Vehicle.update^[n] (Vehicle.new "up" 1)).direction = "up") ∧
        (∀ n : Nat, k ≤ n → (Vehicle.update^[n] (Vehicle.new "up" 1)).direction =
          turnTarget "up" (Vehicle.new "up" 1).route) ∧
        turnTarget "up" (Vehicle.new "up" 1).route ≠ "up" ∧
        (∀ n : Nat, n < k →
          (Vehicle.update^[n] (Vehicle.new "up" 1)).is_off_screen = false)) :=
  C1_heading_changes_at_most_once "up" 1 (by decide)

/-- C3: spawning heading North (`"up"`, center `(500, 400)`, lane width
30), with route `TurnLeft`, the heading flips to East (`"right"`) on the
first update call at whose start the vertical coordinate is
`≤ CENTER_Y + LANE_WIDTH / 2 = 415` — that is call 194, reading the state
after 193 updates — and on no earlier update. -/
theorem C3_turn_determinism_north_left : ∀ n : Nat,
    (((Vehicle.update^[n] (Vehicle.new "up" 1)).y ≤ CENTER_Y + LANE_WIDTH / 2) ↔ 193 ≤ n) ∧
    (((Vehicle.update^[n] (Vehicle.new "up" 1)).direction = "right") ↔ 194 ≤ n) ∧
    (((Vehicle.update^[n] (Vehicle.new "up" 1)).direction = "up") ↔ n ≤ 193) := by
  intro n
  by_cases h : n ≤ 193
  · rw [traj_up_TL_pre n h]
    refine ⟨?_, ?_, ?_⟩ <;> simp [CENTER_Y, LANE_WIDTH, WINDOW_HEIGHT] <;> omega
  · have h2 := traj_up_TL_post (n - 194)
    rw [show (194 + (n - 194) : Nat) = n from by omega] at h2
    rw [h2]
    refine ⟨?_, ?_, ?_⟩ <;> simp [CENTER_Y, LANE_WIDTH, WINDOW_HEIGHT] <;> omega

/-! ### The turn-threshold rule (C2) -/

/-- The turn rule C2 predicts for the North (`"up"`) approach, following
the claim's words: the threshold nearer to the approach side (the bottom
edge, so `CENTER_Y + LANE_WIDTH / 2`) for a right turn, the farther one
(`CENTER_Y - LANE_WIDTH / 2`) for a left turn; turning right yields West
(`"left"`), turning left yields East (`"right"`). -/
def claimTurnNorth (r : String) (y : Int) : String :=
  if r = "TurnRight" ∧ y ≤ CENTER_Y + LANE_WIDTH / 2 then "left"
  else if r = "TurnLeft" ∧ y ≤ CENTER_Y - LANE_WIDTH / 2 then "right"
  else "up"

/-- C2 counterexample: the claim's rule, instantiated at its explicitly
given North-approach case, disagrees with the code.  At `y = 400` a
North-approach `TurnRight` vehicle has crossed the nearer threshold `415`,
so the claim predicts a flip to West (`"left"`); the code's right-turn
branch fires only at the farther threshold (`y ≤ 385`), so the heading is
still `"up"`. -/
theorem C2_counterexample :
    ¬ (∀ (x y : Int) (r : String), (r = "TurnLeft" ∨ r = "TurnRight") →
        (Vehicle.update ⟨x, y, "up", "up", r⟩).direction = claimTurnNorth r y) := by
  intro h
  exact absurd (h 470 400 "TurnRight" (Or.inr rfl)) (by decide)

/-- The threshold on the travel axis nearer to the vehicle's approach
side, `CENTER ± LANE_WIDTH / 2` on the perpendicular road. -/
def nearThreshold (d : String) : Int :=
  if d = "up" then CENTER_Y + LANE_WIDTH / 2
  else if d = "down" then CENTER_Y - LANE_WIDTH / 2
  else if d = "right" then CENTER_X - LANE_WIDTH / 2
  else CENTER_X + LANE_WIDTH / 2

/-- The threshold on the travel axis farther from the vehicle's approach
side. -/
def farThreshold (d : String) : Int :=
  if d = "up" then CENTER_Y - LANE_WIDTH / 2
  else if d = "down" then CENTER_Y + LANE_WIDTH / 2
  else if d = "right" then CENTER_X + LANE_WIDTH / 2
  else CENTER_X - LANE_WIDTH / 2

/-- Whether a vehicle approaching from direction `d` has crossed threshold
`t` on its travel axis (the approach moves `"up"` toward smaller `y`,
`"down"` toward larger `y`, `"right"` toward larger `x`, `"left"` toward
smaller `x`). -/
def crossedThreshold (d : String) (t : Int) (x y : Int) : Bool :=
  if d = "up" then decide (y ≤ t)
  else if d = "down" then decide (t ≤ y)
  else if d = "right" then decide (t ≤ x)
  else decide (x ≤ t)

/-- C2 amended: for an unturned vehicle the flip fires when the travel
coordinate crosses `CENTER ± LANE_WIDTH / 2`, where a LEFT turn uses the
threshold nearer to the approach side and a RIGHT turn the farther one
(the opposite selection from the claim); the new heading is `turnTarget`:
North maps left ↦ East / right ↦ West and South its 180° image, but East
maps left ↦ North / right ↦ South and West maps left ↦ South /
right ↦ North, which is not the 90°-rotation image of the North rule. -/
theorem C2_amended_turn_rule (x y : Int) (d r : String)
    (hd : d ∈ ["up", "down", "right", "left"]) (hr : r = "TurnLeft" ∨ r = "TurnRight") :
    (Vehicle.update ⟨x, y, d, d, r⟩).direction =
      if crossedThreshold d (if r = "TurnLeft" then nearThreshold d else farThreshold d) x y
      then turnTarget d r else d := by
  have hd' : d = "up" ∨ d = "down" ∨ d = "right" ∨ d = "left" := by simpa using hd
  rcases hd' with rfl | rfl | rfl | rfl <;> rcases hr with rfl | rfl
  · by_cases h : y ≤ 415 <;>
      simp [Vehicle.update, Vehicle.turnStep, Vehicle.moveStep, crossedThreshold,
        nearThreshold, farThreshold, turnTarget, h,
        CENTER_X, CENTER_Y, LANE_WIDTH, WINDOW_WIDTH, WINDOW_HEIGHT, VEHICLE_SPEED]
  · by_cases h : y ≤ 385 <;>
      simp [Vehicle.update, Vehicle.turnStep, Vehicle.moveStep, crossedThreshold,
        nearThreshold, farThreshold, turnTarget, h,
        CENTER_X, CENTER_Y, LANE_WIDTH, WINDOW_WIDTH, WINDOW_HEIGHT, VEHICLE_SPEED]
  · by_cases h : (385 : Int) ≤ y <;>
      simp [Vehicle.update, Vehicle.turnStep, Vehicle.moveStep, crossedThreshold,
        nearThreshold, farThreshold, turnTarget, h,
        CENTER_X, CENTER_Y, LANE_WIDTH, WINDOW_WIDTH, WINDOW_HEIGHT, VEHICLE_SPEED]
  · by_cases h : (415 : Int) ≤ y <;>
      simp [Vehicle.update, Vehicle.turnStep, Vehicle.moveStep, crossedThreshold,
        nearThreshold, farThreshold, turnTarget, h,
        CENTER_X, CENTER_Y, LANE_WIDTH, WINDOW_WIDTH, WINDOW_HEIGHT, VEHICLE_SPEED]
  · by_cases h : (485 : Int) ≤ x <;>
      simp [Vehicle.update, Vehicle.turnStep, Vehicle.moveStep, crossedThreshold,
        nearThreshold, farThreshold, turnTarget, h,
        CENTER_X, CENTER_Y, LANE_WIDTH, WINDOW_WIDTH, WINDOW_HEIGHT, VEHICLE_SPEED]
  · by_cases h : (515 : Int) ≤ x <;>
      simp [Vehicle.update, Vehicle.turnStep, Vehicle.moveStep, crossedThreshold,
        nearThreshold, farThreshold, turnTarget, h,
        CENTER_X, CENTER_Y, LANE_WIDTH, WINDOW_WIDTH, WINDOW_HEIGHT, VEHICLE_SPEED]
  · by_cases h : x ≤ 515 <;>
      simp [Vehicle.update, Vehicle.turnStep, Vehicle.moveStep, crossedThreshold,
        nearThreshold, farThreshold, turnTarget, h,
        CENTER_X, CENTER_Y, LANE_WIDTH, WINDOW_WIDTH, WINDOW_HEIGHT, VEHICLE_SPEED]
  · by_cases h : x ≤ 485 <;>
      simp [Vehicle.update, Vehicle.turnStep, Vehicle.moveStep, crossedThreshold,
        nearThreshold, farThreshold, turnTarget, h,
        CENTER_X, CENTER_Y, LANE_WIDTH, WINDOW_WIDTH, WINDOW_HEIGHT, VEHICLE_SPEED]

/-- C2 witness: the amended rule applied to a freshly spawned
North-approach left-turning vehicle. -/
theorem C2_witness :
    (Vehicle.update ⟨470, 800, "up", "up", "TurnLeft"⟩).direction =
      if crossedThreshold "up"
          (if "TurnLeft" = "TurnLeft" then nearThreshold "up" else farThreshold "up") 470 800
      then turnTarget "up" "TurnLeft" else "up" :=
  C2_amended_turn_rule 470 800 "up" "TurnLeft" (by decide) (Or.inl rfl)

/-! ### Translation (C4), off-screen test (C8), tick pruning (C7) -/

/-- C4: each `Vehicle::update()` call changes exactly one coordinate, by
exactly `VEHICLE_SPEED`, along the heading in effect after the turn
evaluation of the same call (North decreases `y`, South increases `y`,
East increases `x`, West decreases `x`), and leaves the other coordinate
unchanged; the turn evaluation itself never moves the vehicle. -/
theorem C4_translation_along_post_turn_heading (v : Vehicle)
    (h : v.turnStep.direction ∈ ["up", "down", "right", "left"]) :
    (v.turnStep.x = v.x ∧ v.turnStep.y = v.y) ∧
    (v.turnStep.direction = "up" →
      v.update.x = v.x ∧ v.update.y = v.y - VEHICLE_SPEED) ∧
    (v.turnStep.direction = "down" →
      v.update.x = v.x ∧ v.update.y = v.y + VEHICLE_SPEED) ∧
    (v.turnStep.direction = "right" →
      v.update.x = v.x + VEHICLE_SPEED ∧ v.update.y = v.y) ∧
    (v.turnStep.direction = "left" →
      v.update.x = v.x - VEHICLE_SPEED ∧ v.update.y = v.y) := by
  have hpos : v.turnStep.x = v.x ∧ v.turnStep.y = v.y := by
    unfold Vehicle.turnStep
    simp only []
    split_ifs <;> exact ⟨rfl, rfl⟩
  refine ⟨hpos, ?_, ?_, ?_, ?_⟩ <;> intro hdir <;>
    simp [Vehicle.update, Vehicle.moveStep, hdir, hpos.1, hpos.2]

/-- C4 witness: a straight North-bound vehicle moves up by
`VEHICLE_SPEED` with `x` unchanged. -/
theorem C4_witness :
    (⟨470, 800, "up", "up", "Straight"⟩ : Vehicle).update.x =
      (⟨470, 800, "up", "up", "Straight"⟩ : Vehicle).x ∧
    (⟨470, 800, "up", "up", "Straight"⟩ : Vehicle).update.y =
      (⟨470, 800, "up", "up", "Straight"⟩ : Vehicle).y - VEHICLE_SPEED :=
  (C4_translation_along_post_turn_heading ⟨470, 800, "up", "up", "Straight"⟩
    (by decide)).2.1 (by decide)

/-- C7: one world tick updates every vehicle and then removes exactly the
now-off-screen ones: the tick is map-then-filter, after a tick no stored
vehicle is off screen, a stored vehicle whose update stays on screen
survives as its update, and every vehicle stored after the tick is the
update of a previously stored one (nothing is re-added). -/
theorem C7_tick_update_then_prune (s : TrafficSimulation) :
    ((s.update).vehicles =
      (s.vehicles.map Vehicle.update).filter (fun v => !v.is_off_screen)) ∧
    (∀ v, v ∈ (s.update).vehicles → v.is_off_screen = false) ∧
    (∀ v, v ∈ s.vehicles → (v.update).is_off_screen = false →
      v.update ∈ (s.update).vehicles) ∧
    (∀ w, w ∈ (s.update).vehicles → ∃ v, v ∈ s.vehicles ∧ w = v.update) := by
  refine ⟨rfl, ?_, ?_, ?_⟩
  · intro v hv
    simp [TrafficSimulation.update, List.mem_filter] at hv
    exact hv.2
  · intro v hv hoff
    simp [TrafficSimulation.update, List.mem_filter]
    exact ⟨⟨v, hv, rfl⟩, hoff⟩
  · intro w hw
    simp [TrafficSimulation.update, List.mem_filter, List.mem_map] at hw
    obtain ⟨⟨v, hv, rfl⟩, _⟩ := hw
    exact ⟨v, hv, rfl⟩

/-- C7 witness: a live vehicle's update survives a world tick. -/
theorem C7_witness :
    Vehicle.update ⟨470, 800, "up", "up", "Straight"⟩ ∈
      (TrafficSimulation.update ⟨[⟨470, 800, "up", "up", "Straight"⟩]⟩).vehicles :=
  (C7_tick_update_then_prune ⟨[⟨470, 800, "up", "up", "Straight"⟩]⟩).2.2.1
    ⟨470, 800, "up", "up", "Straight"⟩ (by decide) (by decide)

/-- C8: `is_off_screen()` is true iff the horizontal coordinate lies
outside `[-50, WINDOW_WIDTH + 50]` or the vertical coordinate lies outside
`[-50, WINDOW_HEIGHT + 50]`, and it reads only the current position. -/
theorem C8_off_screen_iff_outside_margin (v w : Vehicle) :
    (v.is_off_screen = true ↔
      (¬ (-50 ≤ v.x ∧ v.x ≤ WINDOW_WIDTH + 50) ∨
       ¬ (-50 ≤ v.y ∧ v.y ≤ WINDOW_HEIGHT + 50))) ∧
    (v.x = w.x → v.y = w.y → v.is_off_screen = w.is_off_screen) := by
  constructor
  · simp [Vehicle.is_off_screen, WINDOW_WIDTH, WINDOW_HEIGHT]
    omega
  · intro h1 h2
    simp [Vehicle.is_off_screen, h1, h2]

/-- C8 witness: the test depends only on the position — two vehicles at
the same spot with different headings and routes agree on it. -/
theorem C8_witness :
    (⟨2000, 0, "up", "up", "Straight"⟩ : Vehicle).is_off_screen =
      (⟨2000, 0, "down", "left", "TurnLeft"⟩ : Vehicle).is_off_screen :=
  (C8_off_screen_iff_outside_margin ⟨2000, 0, "up", "up", "Straight"⟩
    ⟨2000, 0, "down", "left", "TurnLeft"⟩).2 rfl rfl

/-! ### Spawn placement (C9) and invalid directions (C10) -/

/-- C9: a newly constructed vehicle has `initial_direction = direction =`
the requested approach; North/South entries sit at horizontal offset
`∓LANE_WIDTH` from the vertical centerline with the along-axis coordinate
at the screen edge, and symmetrically for East/West entries. -/
theorem C9_spawn_state (ri : Fin 3) :
    (∀ d, d ∈ ["up", "down", "right", "left"] →
      (Vehicle.new d ri).direction = d ∧ (Vehicle.new d ri).initial_direction = d) ∧
    ((Vehicle.new "up" ri).x = CENTER_X - LANE_WIDTH ∧
      (Vehicle.new "up" ri).y = WINDOW_HEIGHT) ∧
    ((Vehicle.new "down" ri).x = CENTER_X + LANE_WIDTH ∧
      (Vehicle.new "down" ri).y = 0) ∧
    ((Vehicle.new "right" ri).x = 0 ∧
      (Vehicle.new "right" ri).y = CENTER_Y + LANE_WIDTH) ∧
    ((Vehicle.new "left" ri).x = WINDOW_WIDTH ∧
      (Vehicle.new "left" ri).y = CENTER_Y - LANE_WIDTH) :=
  ⟨fun d _ => ⟨rfl, rfl⟩, ⟨rfl, rfl⟩, ⟨rfl, rfl⟩, ⟨rfl, rfl⟩, rfl, rfl⟩

/-- C9 witness: the North spawn. -/
theorem C9_witness :
    (Vehicle.new "up" 0).direction = "up" ∧
      (Vehicle.new "up" 0).initial_direction = "up" :=
  (C9_spawn_state 0).1 "up" (by decide)

/-- C10: for a direction string outside the four valid ones,
`Vehicle::new` places the vehicle at `(0, 0)`, every update leaves it
entirely unchanged, `is_off_screen()` is false, and it survives any number
of world ticks. -/
theorem C10_invalid_direction_vehicle_is_immortal (d : String) (ri : Fin 3)
    (s : TrafficSimulation) (hd : d ∉ ["up", "down", "right", "left"]) :
    (Vehicle.new d ri).x = 0 ∧ (Vehicle.new d ri).y = 0 ∧
    (∀ n : Nat, Vehicle.update^[n] (Vehicle.new d ri) = Vehicle.new d ri) ∧
    (Vehicle.new d ri).is_off_screen = false ∧
    (∀ n : Nat, Vehicle.new d ri ∈ s.vehicles →
      Vehicle.new d ri ∈ (TrafficSimulation.update^[n] s).vehicles) := by
  have hd' : ¬(d = "up" ∨ d = "down" ∨ d = "right" ∨ d = "left") := by simpa using hd
  push_neg at hd'
  obtain ⟨h1, h2, h3, h4⟩ := hd'
  have hx : (Vehicle.new d ri).x = 0 := by simp [Vehicle.new, h1, h2, h3, h4]
  have hy : (Vehicle.new d ri).y = 0 := by simp [Vehicle.new, h1, h2, h3, h4]
  have hdir : (Vehicle.new d ri).direction = d := rfl
  have hinit : (Vehicle.new d ri).initial_direction = d := rfl
  have hfix : Vehicle.update (Vehicle.new d ri) = Vehicle.new d ri := by
    simp [Vehicle.update, Vehicle.turnStep, Vehicle.moveStep, hdir, hinit,
      h1, h2, h3, h4]
  have hoff : (Vehicle.new d ri).is_off_screen = false := by
    simp [Vehicle.is_off_screen, hx, hy, WINDOW_WIDTH, WINDOW_HEIGHT]
  have hstep : ∀ t : TrafficSimulation, Vehicle.new d ri ∈ t.vehicles →
      Vehicle.new d ri ∈ (TrafficSimulation.update t).vehicles := by
    intro t ht
    simp [TrafficSimulation.update, List.mem_filter, List.mem_map]
    exact ⟨⟨Vehicle.new d ri, ht, hfix⟩, hoff⟩
  have hpersist : ∀ (n : Nat) (t : TrafficSimulation),
      Vehicle.new d ri ∈ t.vehicles →
      Vehicle.new d ri ∈ (TrafficSimulation.update^[n] t).vehicles := by
    intro n
    induction n with
    | zero => exact fun t ht => ht
    | succ m ih =>
      intro t ht
      rw [Function.iterate_succ_apply]
      exact ih _ (hstep t ht)
  exact ⟨hx, hy, fun n => Function.iterate_fixed hfix n, hoff,
    fun n => hpersist n s⟩

/-! ### The spawn throttle of the main loop (C5, C6)

The source gates spawns per direction with wall-clock milliseconds:
`last_spawn_time: [u128; 4]` starts at `[0, 0, 0, 0]`, and a key press for
`timer_index` at `current_time = now_in_millis()` spawns iff
`current_time - last_spawn_time[timer_index] > delay` (with `delay =
1000`), updating only that entry on success.  The per-frame
`simulation.update()` never touches `last_spawn_time`. -/

/-- The `delay` constant of `main` (milliseconds). -/
def delay : Nat := 1000

/-- `2^128`, the modulus of Rust's `u128`. -/
def U128_MOD : Nat := 2 ^ 128

/-- Wrapping `u128` subtraction, as in `current_time -
last_spawn_time[timer_index]`. -/
def u128_sub (a b : Nat) : Nat := (a + U128_MOD - b) % U128_MOD

/-- The spawn gate of the main loop for one key press: `t` is the
`last_spawn_time` array, `i` the `timer_index`, `c` the `now_in_millis()`
value.  Returns whether `spawn_vehicle` is called, and the updated
array. -/
def tryKeySpawn (t : Fin 4 → Nat) (i : Fin 4) (c : Nat) : Bool × (Fin 4 → Nat) :=
  if delay < u128_sub c (t i) then (true, Function.update t i c) else (false, t)

/-- Events seen by the throttle: a simulation tick (one pass of
`simulation.update()` per frame), or a key press for direction `i` at
wall-clock time `c`. -/
inductive ThrottleEvent where
  | tick : ThrottleEvent
  | request : Fin 4 → Nat → ThrottleEvent
deriving DecidableEq

/-- The sequence of spawn decisions the source's throttle makes on a
sequence of events: ticks leave `last_spawn_time` untouched. -/
def codeRun : (Fin 4 → Nat) → List ThrottleEvent → List Bool
  | _, [] => []
  | t, ThrottleEvent.tick :: evs => codeRun t evs
  | t, ThrottleEvent.request i c :: evs =>
      (tryKeySpawn t i c).1 :: codeRun (tryKeySpawn t i c).2 evs

/-- The spawn decisions of the throttle that C5 describes, following the
claim's words: per-direction tick-counted cooldown counters;
`trySpawn(direction)` succeeds iff `cooldown[direction] == 0` and then
resets it to the constant `N = SPAWN_COOLDOWN_TICKS`; every simulation
tick decrements each nonzero counter by exactly 1, saturating at 0; the
wall-clock time of a request is ignored. -/
def specRun (N : Nat) : (Fin 4 → Nat) → List ThrottleEvent → List Bool
  | _, [] => []
  | c, ThrottleEvent.tick :: evs => specRun N (fun d => c d - 1) evs
  | c, ThrottleEvent.request i _ :: evs =>
      if c i = 0 then true :: specRun N (Function.update c i N) evs
      else false :: specRun N c evs

theorem u128_sub_of_le (a b : Nat) (hba : b ≤ a) (ha : a < 2 ^ 128) :
    u128_sub a b = a - b := by
  unfold u128_sub U128_MOD
  have hM : (2 : Nat) ^ 128 = 340282366920938463463374607431768211456 := by norm_num
  rw [hM] at ha ⊢
  omega

theorem codeRun_replicate_tick (t : Fin 4 → Nat) (k : Nat) (evs : List ThrottleEvent) :
    codeRun t (List.replicate k ThrottleEvent.tick ++ evs) = codeRun t evs := by
  induction k with
  | zero => rfl
  | succ m ih =>
    rw [List.replicate_succ, List.cons_append]
    simp only [codeRun]
    exact ih

theorem specRun_replicate_tick (N : Nat) (k : Nat) (c : Fin 4 → Nat)
    (evs : List ThrottleEvent) :
    specRun N c (List.replicate k ThrottleEvent.tick ++ evs) =
      specRun N (fun d => c d - k) evs := by
  induction k generalizing c with
  | zero =>
    rw [List.replicate, List.nil_append]
    rfl
  | succ m ih =>
    rw [List.replicate_succ, List.cons_append]
    simp only [specRun]
    rw [ih]
    congr 1
    funext d
    omega

theorem codeRun_request (t : Fin 4 → Nat) (i : Fin 4) (c : Nat)
    (evs : List ThrottleEvent) :
    codeRun t (ThrottleEvent.request i c :: evs) =
      (tryKeySpawn t i c).1 :: codeRun (tryKeySpawn t i c).2 evs := rfl

theorem specRun_request_hit (N : Nat) (c : Fin 4 → Nat) (i : Fin 4)
    (time : Nat) (evs : List ThrottleEvent) (h : c i = 0) :
    specRun N c (ThrottleEvent.request i time :: evs) =
      true :: specRun N (Function.update c i N) evs := by
  simp only [specRun]
  rw [if_pos h]

/-- C5 counterexample: the source's throttle is not tick-counted for any
constant `SPAWN_COOLDOWN_TICKS`.  After a successful spawn for a
direction, the tick-counted model allows the next request for it once
`N + 1` ticks have elapsed whatever the wall clock did; the source refuses
it because `now_in_millis()` has not advanced past the 1000 ms delay
(frames run while the millisecond clock reads the same value). -/
theorem C5_counterexample :
    ¬ (∃ N : Nat, ∀ evs : List ThrottleEvent,
        codeRun (fun _ => 0) evs = specRun N (fun _ => 0) evs) := by
  rintro ⟨N, h⟩
  have hstate0 : tryKeySpawn (fun _ => 0) 0 1000000000000 =
      (true, Function.update (fun _ => 0) 0 1000000000000) := by
    have e1 : u128_sub 1000000000000 ((fun _ => (0 : Nat)) (0 : Fin 4)) =
        1000000000000 := by
      show u128_sub 1000000000000 0 = 1000000000000
      rw [u128_sub_of_le _ _ (by omega) (by norm_num)]
    unfold tryKeySpawn
    rw [e1, if_pos (by norm_num [delay])]
  have hstate1 : tryKeySpawn (Function.update (fun _ => 0) 0 1000000000000) 0
      1000000000000 =
      (false, Function.update (fun _ => 0) 0 1000000000000) := by
    have e2 : u128_sub 1000000000000
        (Function.update (fun _ => (0 : Nat)) (0 : Fin 4) 1000000000000 0) = 0 := by
      rw [show Function.update (fun _ => (0 : Nat)) (0 : Fin 4) 1000000000000 0 =
        1000000000000 from by simp]
      rw [u128_sub_of_le _ _ le_rfl (by norm_num)]
    unfold tryKeySpawn
    rw [e2, if_neg (by norm_num [delay])]
  have hh := h (ThrottleEvent.request 0 1000000000000 ::
    (List.replicate (N + 1) ThrottleEvent.tick ++
      [ThrottleEvent.request 0 1000000000000]))
  have hcode : codeRun (fun _ => 0) (ThrottleEvent.request 0 1000000000000 ::
      (List.replicate (N + 1) ThrottleEvent.tick ++
        [ThrottleEvent.request 0 1000000000000])) = [true, false] := by
    rw [codeRun_request, hstate0]
    show true :: codeRun (Function.update (fun _ => 0) 0 1000000000000)
      (List.replicate (N + 1) ThrottleEvent.tick ++
        [ThrottleEvent.request 0 1000000000000]) = [true, false]
    rw [codeRun_replicate_tick, codeRun_request, hstate1]
    rfl
  have hfinal : Function.update (fun _ => (0 : Nat)) (0 : Fin 4) N 0 - (N + 1) = 0 := by
    rw [Function.update_same]
    omega
  have hspec : specRun N (fun _ => 0) (ThrottleEvent.request 0 1000000000000 ::
      (List.replicate (N + 1) ThrottleEvent.tick ++
        [ThrottleEvent.request 0 1000000000000])) = [true, true] := by
    rw [specRun_request_hit N _ 0 1000000000000 _ rfl, specRun_replicate_tick,
      specRun_request_hit N _ 0 1000000000000 [] hfinal]
    rfl
  rw [hcode, hspec] at hh
  simp at hh

/-- C5 amended: the spawn throttle is wall-clock counted, not
tick-counted.  A request for direction `i` at time `c` succeeds iff
`c - last_spawn_time[i] > 1000` ms; on success only entry `i` is reset to
`c`, on failure nothing is mutated; and a simulation tick leaves the
throttle state unchanged (no per-tick decrement exists). -/
theorem C5_amended_wall_clock_gate (t : Fin 4 → Nat) (i : Fin 4) (c : Nat)
    (hmono : t i ≤ c) (hrange : c < 2 ^ 128) (evs : List ThrottleEvent) :
    ((tryKeySpawn t i c).1 = true ↔ delay < c - t i) ∧
    ((tryKeySpawn t i c).1 = true →
      (tryKeySpawn t i c).2 = Function.update t i c) ∧
    ((tryKeySpawn t i c).1 = false → (tryKeySpawn t i c).2 = t) ∧
    (codeRun t (ThrottleEvent.tick :: evs) = codeRun t evs) := by
  have e : u128_sub c (t i) = c - t i := u128_sub_of_le _ _ hmono hrange
  unfold tryKeySpawn
  rw [e]
  by_cases hlt : delay < c - t i
  · rw [if_pos hlt]
    exact ⟨by simp [hlt], fun _ => rfl, by simp, rfl⟩
  · rw [if_neg hlt]
    exact ⟨by simp [hlt], by simp, fun _ => rfl, rfl⟩

/-- C5 witness: the amended gate at a concrete ready state. -/
theorem C5_witness :
    ((tryKeySpawn (fun _ => 0) 0 2000).1 = true ↔
      delay < 2000 - (fun _ => (0 : Nat)) (0 : Fin 4)) ∧
    ((tryKeySpawn (fun _ => 0) 0 2000).1 = true →
      (tryKeySpawn (fun _ => 0) 0 2000).2 = Function.update (fun _ => 0) 0 2000) ∧
    ((tryKeySpawn (fun _ => 0) 0 2000).1 = false →
      (tryKeySpawn (fun _ => 0) 0 2000).2 = (fun _ => 0)) ∧
    (codeRun (fun _ => 0) (ThrottleEvent.tick :: []) = codeRun (fun _ => 0) []) :=
  C5_amended_wall_clock_gate (fun _ => 0) 0 2000 (Nat.zero_le _) (by norm_num) []

/-- C6: a successful spawn for one direction mutates only that
direction's `last_spawn_time` entry; two requests for different
directions inside the same cooldown window both succeed, while a second
request for the same direction within the window fails. -/
theorem C6_throttle_per_direction_independence (t : Fin 4 → Nat) (i j : Fin 4)
    (c1 c2 : Nat) (hij : i ≠ j)
    (hm1 : t i ≤ c1) (hr1 : c1 < 2 ^ 128)
    (hm2 : t j ≤ c2) (hr2 : c2 < 2 ^ 128)
    (hready1 : delay < c1 - t i) (hready2 : delay < c2 - t j)
    (horder : c1 ≤ c2) :
    (tryKeySpawn t i c1).1 = true ∧
    (∀ k, k ≠ i → (tryKeySpawn t i c1).2 k = t k) ∧
    (tryKeySpawn (tryKeySpawn t i c1).2 j c2).1 = true ∧
    (c2 - c1 ≤ delay → (tryKeySpawn (tryKeySpawn t i c1).2 i c2).1 = false) := by
  have hfirst : tryKeySpawn t i c1 = (true, Function.update t i c1) := by
    unfold tryKeySpawn
    rw [u128_sub_of_le _ _ hm1 hr1, if_pos hready1]
  refine ⟨by rw [hfirst], ?_, ?_, ?_⟩
  · intro k hk
    rw [hfirst]
    exact Function.update_noteq hk _ _
  · rw [hfirst]
    have hj : Function.update t i c1 j = t j := Function.update_noteq hij.symm _ _
    unfold tryKeySpawn
    rw [show (true, Function.update t i c1).2 = Function.update t i c1 from rfl,
      hj, u128_sub_of_le _ _ hm2 hr2, if_pos hready2]
  · intro hwin
    rw [hfirst]
    have hi : Function.update t i c1 i = c1 := by simp
    unfold tryKeySpawn
    rw [show (true, Function.update t i c1).2 = Function.update t i c1 from rfl,
      hi, u128_sub_of_le _ _ horder hr2, if_neg (by omega)]

/-- C6 witness: with all timers at 0, a request for direction 0 at
t=2000 ms succeeds, a request for direction 1 at t=2500 ms still
succeeds, a second request for direction 0 at t=2500 ms fails, and
direction 1's timer was untouched by the first spawn. -/
theorem C6_witness :
    (tryKeySpawn (fun _ => 0) 0 2000).1 = true ∧
    (tryKeySpawn (tryKeySpawn (fun _ => 0) 0 2000).2 1 2500).1 = true ∧
    (tryKeySpawn (tryKeySpawn (fun _ => 0) 0 2000).2 0 2500).1 = false ∧
    (tryKeySpawn (fun _ => 0) 0 2000).2 1 = (fun _ => (0 : Nat)) (1 : Fin 4) := by
  have h := C6_throttle_per_direction_independence (fun _ => 0) 0 1 2000 2500
    (by decide) (Nat.zero_le _) (by norm_num) (Nat.zero_le _) (by norm_num)
    (by norm_num [delay]) (by norm_num [delay]) (by norm_num)
  exact ⟨h.1, h.2.2.1, h.2.2.2 (by norm_num [delay]), h.2.1 1 (by decide)⟩

/-- C10 witness: a vehicle spawned with the direction string
`"sideways"`. -/
theorem C10_witness :
    (Vehicle.new "sideways" 0).x = 0 ∧ (Vehicle.new "sideways" 0).y = 0 ∧
    (∀ n : Nat, Vehicle.update^[n] (Vehicle.new "sideways" 0) =
      Vehicle.new "sideways" 0) ∧
    (Vehicle.new "sideways" 0).is_off_screen = false ∧
    (∀ n : Nat,
      Vehicle.new "sideways" 0 ∈
        (⟨[Vehicle.new "sideways" 0]⟩ : TrafficSimulation).vehicles →
      Vehicle.new "sideways" 0 ∈
        (TrafficSimulation.update^[n] ⟨[Vehicle.new "sideways" 0]⟩).vehicles) :=
  C10_invalid_direction_vehicle_is_immortal "sideways" 0
    ⟨[Vehicle.new "sideways" 0]⟩ (by decide)
